import Mathlib

/-!
Verification of the coffee-shop drinks backend (`src/backend/src/api.py`)
against its specification.

The embedding models:
* JSON values (request and response bodies, `json.dumps` / `json.loads`);
* the `Drink` persistence model (the `models.py` file is not part of the
  sources, so it is modelled from the spec);
* the authorization checker (the `auth.py` file is not part of the sources,
  so it is modelled from the spec);
* the five route handlers and the registered error handlers of `api.py`,
  translated directly from the source.

Flask's `abort(status)` inside a handler is modelled as returning the
response produced by the registered error handler for that status.  An
uncaught Python exception (such as `KeyError`) is modelled as the `.error`
case of `Except PyExc`.
-/

namespace CoffeeShop

/-- JSON values, as produced by Flask's `request.get_json()` and consumed by
`jsonify`.  Objects keep their key order. -/
inductive Json where
  | null : Json
  | bool (b : Bool) : Json
  | num (n : Int) : Json
  | str (s : String) : Json
  | arr (xs : List Json) : Json
  | obj (kvs : List (String × Json)) : Json

/-- Python's `x is None` test on a JSON value delivered by `get_json`
(JSON `null` decodes to Python `None`). -/
def Json.isNull : Json → Bool
  | .null => true
  | _ => false

/-- Python `d[k]` / membership test on a JSON object: the first binding of
key `k`, or `none` when the key is absent (Python raises `KeyError`). -/
def Json.lookup (j : Json) (k : String) : Option Json :=
  match j with
  | .obj kvs => List.lookup k kvs
  | _ => none

/-- The opening-brace character of serialized JSON objects. -/
def lbrace : Char := Char.ofNat 123

/-- The closing-brace character of serialized JSON objects. -/
def rbrace : Char := Char.ofNat 125

mutual

/-- `json.dumps` with Python's default separators. -/
def Json.dumps : Json → String
  | .null => "null"
  | .bool true => "true"
  | .bool false => "false"
  | .num n => toString n
  | .str s => "\"" ++ s ++ "\""
  | .arr xs => "[" ++ Json.dumpsArr xs ++ "]"
  | .obj kvs => "\x7b" ++ Json.dumpsObj kvs ++ "\x7d"

/-- Comma-separated serialization of array elements. -/
def Json.dumpsArr : List Json → String
  | [] => ""
  | [x] => Json.dumps x
  | x :: y :: xs => Json.dumps x ++ ", " ++ Json.dumpsArr (y :: xs)

/-- Comma-separated serialization of object entries. -/
def Json.dumpsObj : List (String × Json) → String
  | [] => ""
  | [(k, v)] => "\"" ++ k ++ "\": " ++ Json.dumps v
  | (k, v) :: e :: kvs =>
      "\"" ++ k ++ "\": " ++ Json.dumps v ++ ", " ++ Json.dumpsObj (e :: kvs)

end

/-- Drop leading JSON whitespace. -/
def skipWs : List Char → List Char
  | c :: cs => if c = ' ' ∨ c = '\n' ∨ c = '\t' ∨ c = '\r' then skipWs cs else c :: cs
  | [] => []

/-- Read the characters of a string literal up to the closing quote
(escape sequences are not needed by the recipes this backend stores). -/
def takeStrChars : List Char → Option (List Char × List Char)
  | [] => none
  | c :: cs =>
      if c = '"' then some ([], cs)
      else match takeStrChars cs with
           | some (s, rest) => some (c :: s, rest)
           | none => none

/-- Read a maximal run of decimal digits. -/
def takeDigits : List Char → List Char × List Char
  | [] => ([], [])
  | c :: cs =>
      if c.isDigit then
        match takeDigits cs with
        | (ds, rest) => (c :: ds, rest)
      else ([], c :: cs)

/-- Value of a run of decimal digits. -/
def digitsVal (ds : List Char) : Nat :=
  ds.foldl (fun acc c => 10 * acc + (c.toNat - 48)) 0

mutual

/-- Recursive-descent JSON value parser; the fuel bounds nesting. -/
def parseVal : Nat → List Char → Option (Json × List Char)
  | 0, _ => none
  | fuel + 1, cs =>
    match skipWs cs with
    | [] => none
    | c :: rest =>
      if c = '"' then
        match takeStrChars rest with
        | some (s, r) => some (.str (String.mk s), r)
        | none => none
      else if c = '[' then
        match skipWs rest with
        | ']' :: r2 => some (.arr [], r2)
        | r2 =>
          match parseArrItems fuel r2 with
          | some (xs, r3) => some (.arr xs, r3)
          | none => none
      else if c = lbrace then
        let r2 := skipWs rest
        if r2.head? = some rbrace then some (.obj [], r2.tail)
        else
          match parseObjItems fuel r2 with
          | some (kvs, r3) => some (.obj kvs, r3)
          | none => none
      else if c = 't' then
        match rest with
        | 'r' :: 'u' :: 'e' :: r => some (.bool true, r)
        | _ => none
      else if c = 'f' then
        match rest with
        | 'a' :: 'l' :: 's' :: 'e' :: r => some (.bool false, r)
        | _ => none
      else if c = 'n' then
        match rest with
        | 'u' :: 'l' :: 'l' :: r => some (.null, r)
        | _ => none
      else if c = '-' then
        match takeDigits rest with
        | ([], _) => none
        | (ds, r) => some (.num (-(digitsVal ds : Int)), r)
      else if c.isDigit then
        match takeDigits (c :: rest) with
        | (ds, r) => some (.num (digitsVal ds), r)
      else none

/-- Items of a non-empty array, after the opening bracket. -/
def parseArrItems : Nat → List Char → Option (List Json × List Char)
  | 0, _ => none
  | fuel + 1, cs =>
    match parseVal fuel cs with
    | none => none
    | some (v, r) =>
      match skipWs r with
      | ',' :: r2 =>
        match parseArrItems fuel r2 with
        | some (vs, r3) => some (v :: vs, r3)
        | none => none
      | ']' :: r2 => some ([v], r2)
      | _ => none

/-- Entries of a non-empty object, after the opening brace. -/
def parseObjItems : Nat → List Char → Option (List (String × Json) × List Char)
  | 0, _ => none
  | fuel + 1, cs =>
    match skipWs cs with
    | [] => none
    | c :: r =>
      if c = '"' then
        match takeStrChars r with
        | none => none
        | some (k, r1) =>
          match skipWs r1 with
          | ':' :: r2 =>
            match parseVal fuel r2 with
            | none => none
            | some (v, r3) =>
              match skipWs r3 with
              | ',' :: r4 =>
                match parseObjItems fuel r4 with
                | some (kvs, r5) => some ((String.mk k, v) :: kvs, r5)
                | none => none
              | more =>
                if more.head? = some rbrace then some ([(String.mk k, v)], more.tail)
                else none
          | _ => none
      else none

end

/-- `json.loads`: parse a serialized JSON text, `none` on malformed input. -/
def Json.loads (s : String) : Option Json :=
  match parseVal (2 * s.length + 2) s.toList with
  | some (v, r) => if skipWs r = [] then some v else none
  | none => none

/-! ## The Drink persistence model

Modelled from the spec: the file `src/backend/src/database/models.py` that
defines the `Drink` mapper class (columns, `short`, `long`, `insert`,
`update`, `delete`) is not among the sources.  Per the spec's data model, a
drink row has a generated integer identifier, a title, and a recipe — "a
structured list of \x7bcolor, name, parts\x7d, stored as serialized text".
The title column holds the JSON value supplied by the client; in every
reachable state it is a JSON string per the spec's invariant. -/
structure Drink where
  id : Nat
  title : Json
  recipe : String

/-- Modelled from the spec: the generated identifier of a freshly inserted
row — "identifier (integer, unique, generated)", autoincrement. -/
def nextId (table : List Drink) : Nat :=
  (table.map Drink.id).foldr max 0 + 1

/-- Keep only the `name` of a recipe ingredient, per the spec's glossary:
the short form omits "recipe detail color/parts". -/
def stripEntry : Json → Json
  | .obj kvs => .obj (kvs.filter (fun kv => kv.1 != "color" && kv.1 != "parts"))
  | j => j

/-- Short-form recipe: every ingredient record stripped of its detail. -/
def stripDetail : Json → Json
  | .arr xs => .arr (xs.map stripEntry)
  | j => j

/-- Modelled from the spec: `Drink.short()` — "drink representation
omitting recipe ingredient detail".  The stored recipe text is decoded and
each ingredient record is stripped of its color/parts detail. -/
def Drink.short (d : Drink) : Json :=
  .obj [("id", .num d.id), ("title", d.title),
        ("recipe", stripDetail ((Json.loads d.recipe).getD .null))]

/-- Modelled from the spec: `Drink.long()` — "full drink representation
including recipe ingredients". -/
def Drink.long (d : Drink) : Json :=
  .obj [("id", .num d.id), ("title", d.title),
        ("recipe", (Json.loads d.recipe).getD .null)]

/-- A Python exception escaping a handler uncaught. -/
inductive PyExc where
  | keyError (key : String) : PyExc
  | multipleResultsFound : PyExc
deriving DecidableEq, Repr

/-- `Drink.query.filter_by(id=i).one_or_none()`: the unique row with the
given id, `none` when absent, and the mapper's `MultipleResultsFound`
exception when the id is duplicated (impossible for a primary key). -/
def one_or_none (table : List Drink) (i : Nat) : Except PyExc (Option Drink) :=
  match table.filter (fun d => d.id == i) with
  | [] => .ok none
  | [d] => .ok (some d)
  | _ => .error .multipleResultsFound

/-! ## Responses and the registered error handlers (`api.py`) -/

/-- An HTTP response: status code and JSON body. -/
structure Response where
  status : Nat
  body : Json

/-- The `@app.errorhandler(404)` response of `api.py`. -/
def notFoundResponse : Response :=
  ⟨404, .obj [("success", .bool false), ("error", .num 404),
              ("message", .str "resource not found")]⟩

/-- The `@app.errorhandler(422)` response of `api.py`. -/
def unprocessableResponse : Response :=
  ⟨422, .obj [("success", .bool false), ("error", .num 422),
              ("message", .str "unprocessable")]⟩

/-- The `@app.errorhandler(400)` response of `api.py`. -/
def badRequestResponse : Response :=
  ⟨400, .obj [("success", .bool false), ("error", .num 400),
              ("message", .str "bad request")]⟩

/-! ## Route handlers (`api.py`)

Each handler is translated from its source function.  Protected handlers
are modelled at the point after `@requires_auth` has succeeded; the
composition with the checker is modelled separately.  The outcome of the
persistence call inside each `try` block is an explicit boolean parameter
(`true`: the call succeeds; `false`: it raises, and the `except` clause
runs `abort(404)`). -/

/-- `GET /drinks` (`get_drinks`): public; 404 on an empty table, else the
short form of every row. -/
def get_drinks (table : List Drink) : Response :=
  if table.length = 0 then notFoundResponse
  else ⟨200, .obj [("success", .bool true),
                   ("drinks", .arr (table.map Drink.short))]⟩

/-- `GET /drinks-detail` (`get_drinks_detail`), after `requires_auth`
granted `get:drinks-detail`: 404 on an empty table, else the long form of
every row. -/
def get_drinks_detail (table : List Drink) : Response :=
  if table.length = 0 then notFoundResponse
  else ⟨200, .obj [("success", .bool true),
                   ("drinks", .arr (table.map Drink.long))]⟩

/-- `POST /drinks` (`create_drink`), after `requires_auth` granted
`post:drinks`.  `data['title']` and `data['recipe']` raise `KeyError` on a
missing key, before the `try` block; the new row stores the title and
`json.dumps` of the recipe; a failing `insert` is caught and answered with
`abort(404)`. -/
def create_drink (table : List Drink) (body : Json) (insertOk : Bool) :
    Except PyExc (Response × List Drink) :=
  match Json.lookup body "title" with
  | none => .error (.keyError "title")
  | some newTitle =>
  match Json.lookup body "recipe" with
  | none => .error (.keyError "recipe")
  | some newRecipe =>
    let drink : Drink := ⟨nextId table, newTitle, Json.dumps newRecipe⟩
    if insertOk then
      .ok (⟨200, .obj [("success", .bool true), ("drinks", Drink.long drink)]⟩,
           table ++ [drink])
    else
      .ok (notFoundResponse, table)

/-- `PATCH /drinks/<id>` (`edit_drink`), after `requires_auth` granted
`patch:drinks`.  404 when the id is absent; otherwise `data['title']` and
`data['recipe']` raise `KeyError` on a missing key, before the `try`
block; a field equal to JSON null is left unchanged (`is not None`); a
failing `update` is caught and answered with `abort(404)`. -/
def edit_drink (table : List Drink) (i : Nat) (body : Json) (updateOk : Bool) :
    Except PyExc (Response × List Drink) :=
  match one_or_none table i with
  | .error e => .error e
  | .ok none => .ok (notFoundResponse, table)
  | .ok (some drink) =>
  match Json.lookup body "title" with
  | none => .error (.keyError "title")
  | some newTitle =>
  match Json.lookup body "recipe" with
  | none => .error (.keyError "recipe")
  | some newRecipe =>
    let d1 := if newTitle.isNull then drink else { drink with title := newTitle }
    let d2 := if newRecipe.isNull then d1 else { d1 with recipe := Json.dumps newRecipe }
    if updateOk then
      .ok (⟨200, .obj [("success", .bool true), ("drinks", Drink.long d2)]⟩,
           table.map (fun r => if r.id = i then d2 else r))
    else
      .ok (notFoundResponse, table)

/-- `DELETE /drinks/<id>` (`delete_drink`), after `requires_auth` granted
`delete:drinks`.  404 when the id is absent; a failing `delete` is caught
and answered with `abort(404)`. -/
def delete_drink (table : List Drink) (i : Nat) (deleteOk : Bool) :
    Except PyExc (Response × List Drink) :=
  match one_or_none table i with
  | .error e => .error e
  | .ok none => .ok (notFoundResponse, table)
  | .ok (some _) =>
    if deleteOk then
      .ok (⟨200, .obj [("success", .bool true), ("id", .num i)]⟩,
           table.filter (fun d => d.id != i))
    else
      .ok (notFoundResponse, table)

/-! ## Authorization checker

Modelled from the spec: the file `src/backend/src/auth/auth.py` that
defines `AuthError` and `requires_auth` is not among the sources.  The
spec's contract: given a raw header value and a required permission
string, the checker either returns the decoded claim set or fails with one
of seven terminal failures, each carrying an HTTP status (401 for all
authentication failures, 403 for insufficient-permission) and a
machine-readable code plus human description. -/

/-- The seven failure modes of the authorization checker, per the spec. -/
inductive AuthFailure where
  | missingHeader : AuthFailure
  | malformedHeader : AuthFailure
  | malformedToken : AuthFailure
  | invalidSignature : AuthFailure
  | expiredToken : AuthFailure
  | missingPermissionClaim : AuthFailure
  | insufficientPermission : AuthFailure
deriving DecidableEq, Repr

/-- HTTP status of a checker failure: 403 for insufficient-permission,
401 for every authentication failure. -/
def AuthFailure.status : AuthFailure → Nat
  | .insufficientPermission => 403
  | _ => 401

/-- Machine-readable code of a checker failure. -/
def AuthFailure.code : AuthFailure → String
  | .missingHeader => "missing_header"
  | .malformedHeader => "malformed_header"
  | .malformedToken => "malformed_token"
  | .invalidSignature => "invalid_signature"
  | .expiredToken => "expired_token"
  | .missingPermissionClaim => "missing_permission_claim"
  | .insufficientPermission => "insufficient_permission"

/-- Human-readable description of a checker failure. -/
def AuthFailure.description : AuthFailure → String
  | .missingHeader => "Authorization header is expected."
  | .malformedHeader => "Authorization header must be a bearer token."
  | .malformedToken => "Unable to parse authentication token."
  | .invalidSignature => "Token verification failed."
  | .expiredToken => "Token expired."
  | .missingPermissionClaim => "Permissions not included in JWT."
  | .insufficientPermission => "Permission not found."

/-- The exception the checker raises, as consumed by `handle_auth_error`
in `api.py`: a JSON payload (`e.error`) and a status (`e.status_code`). -/
structure AuthError where
  error : Json
  status_code : Nat

/-- Modelled from the spec: the payload of a raised `AuthError` carries
the failure's machine-readable code and human description, plus its HTTP
status. -/
def authErrorOf (f : AuthFailure) : AuthError :=
  ⟨.obj [("code", .str f.code), ("description", .str f.description)], f.status⟩

/-- `@app.errorhandler(AuthError)` (`handle_auth_error` in `api.py`): the
response body is `jsonify(e.error)` verbatim and the status is
`e.status_code`. -/
def handle_auth_error (e : AuthError) : Response :=
  ⟨e.status_code, e.error⟩

/-- Outcomes of the external verification steps for one presented token:
whether its header decodes to a known signing key, whether signature,
audience and issuer verify, whether it is expired, and the permissions
claim it carries. -/
structure TokenValidation where
  decodable : Bool
  signatureOk : Bool
  audienceOk : Bool
  issuerOk : Bool
  expired : Bool
  hasPermissionsClaim : Bool
  permissions : List String

/-- Split a character sequence at each space, keeping empty pieces, as
Python's `split(' ')` does. -/
def splitSpace : List Char → List (List Char)
  | [] => [[]]
  | c :: cs =>
      let rest := splitSpace cs
      if c = ' ' then [] :: rest
      else match rest with
           | [] => [[c]]
           | w :: ws => (c :: w) :: ws

/-- Modelled from the spec: header parsing — "split on whitespace, require
exactly two tokens with first equal to Bearer". -/
def parseBearer (h : String) : Option String :=
  match splitSpace h.toList with
  | [b, t] => if String.mk b = "Bearer" then some (String.mk t) else none
  | _ => none

/-- Modelled from the spec: the authorization checker.  Parse the header;
decode the token header and find the signing key; verify signature,
audience and issuer; verify expiry; require a permissions claim; finally
require the permission to be a member of the claim's permission set, else
fail insufficient-permission.  Every failure is terminal. -/
def check_auth (header : Option String) (tok : TokenValidation)
    (required : String) : Except AuthFailure (List String) :=
  match header with
  | none => .error .missingHeader
  | some h =>
  match parseBearer h with
  | none => .error .malformedHeader
  | some _ =>
    if tok.decodable = false then .error .malformedToken
    else if (tok.signatureOk && tok.audienceOk && tok.issuerOk) = false then
      .error .invalidSignature
    else if tok.expired = true then .error .expiredToken
    else if tok.hasPermissionsClaim = false then .error .missingPermissionClaim
    else if required ∈ tok.permissions then .ok tok.permissions
    else .error .insufficientPermission

/-- The full `POST /drinks` route: `requires_auth('post:drinks')` composed
with `create_drink`; a checker failure is answered by
`handle_auth_error`. -/
def post_drinks_route (header : Option String) (tok : TokenValidation)
    (table : List Drink) (body : Json) (insertOk : Bool) :
    Except PyExc (Response × List Drink) :=
  match check_auth header tok "post:drinks" with
  | .error f => .ok (handle_auth_error (authErrorOf f), table)
  | .ok _ => create_drink table body insertOk

/-! ## Observation predicates used by the statements -/

/-- Does a recipe-ingredient record carry a detail field (color or parts)? -/
def entryHasDetail : Json → Bool
  | .obj kvs => kvs.any (fun kv => kv.1 == "color" || kv.1 == "parts")
  | _ => false

/-- Does any ingredient of a recipe value carry a detail field? -/
def recipeHasDetail : Json → Bool
  | .arr xs => xs.any entryHasDetail
  | _ => false

/-- The uniform failure envelope of the spec:
`\x7bsuccess: false, error: <status>, message: <text>\x7d` with `error`
equal to the HTTP status code. -/
def isErrorEnvelope (r : Response) : Prop :=
  r.body.lookup "success" = some (.bool false) ∧
  r.body.lookup "error" = some (.num (r.status : Int)) ∧
  ∃ m, r.body.lookup "message" = some (.str m)

/-! ## Helper lemmas -/

/-- When no row has the requested id, `one_or_none` returns `none`. -/
theorem one_or_none_absent (t : List Drink) (i : Nat)
    (h : ∀ d ∈ t, d.id ≠ i) : one_or_none t i = .ok none := by
  have hf : t.filter (fun d => d.id == i) = [] := by
    rw [List.filter_eq_nil_iff]
    intro d hd
    simp [h d hd]
  simp [one_or_none, hf]

/-- Stripping an ingredient record leaves no detail field. -/
theorem entryHasDetail_stripEntry (j : Json) :
    entryHasDetail (stripEntry j) = false := by
  cases j with
  | obj kvs =>
      simp only [stripEntry, entryHasDetail]
      rw [List.any_eq_false]
      intro kv hkv
      rw [List.mem_filter] at hkv
      have h2 := hkv.2
      simp at h2 ⊢
      exact h2
  | null => rfl
  | bool b => rfl
  | num n => rfl
  | str s => rfl
  | arr xs => rfl

/-- A short-form recipe carries no detail field in any ingredient. -/
theorem recipeHasDetail_stripDetail (j : Json) :
    recipeHasDetail (stripDetail j) = false := by
  cases j with
  | arr xs =>
      simp only [stripDetail, recipeHasDetail]
      rw [List.any_eq_false]
      intro x hx
      rw [List.mem_map] at hx
      obtain ⟨y, _, rfl⟩ := hx
      simp [entryHasDetail_stripEntry]
  | null => rfl
  | bool b => rfl
  | num n => rfl
  | str s => rfl
  | obj kvs => rfl

/-- The recipe field of a short-form drink is its stripped recipe. -/
theorem short_lookup_recipe (d : Drink) :
    (Drink.short d).lookup "recipe"
      = some (stripDetail ((Json.loads d.recipe).getD .null)) := rfl

/-! ## Claims -/

/-- C1: `edit_drink` reads `data['recipe']` with bracket access before its
`try` block, so a PATCH on an existing id whose body carries only a title
raises an uncaught `KeyError('recipe')` instead of updating the title:
evaluated on a one-row table at id 1 with body
`\x7b"title": "NewName"\x7d`, no key "recipe" in the body. -/
theorem edit_title_only_raises_keyerror :
    edit_drink [⟨1, .str "Water", "[]"⟩] 1 (.obj [("title", .str "NewName")]) true
      = .error (.keyError "recipe") ∧
    Json.lookup (.obj [("title", .str "NewName")]) "recipe" = none :=
  ⟨rfl, rfl⟩

/-- C2: GET /drinks returns the registered 404 response on an empty table;
on a non-empty table it returns 200 with success true and exactly one
short-form entry per row, and the short form carries no recipe detail
field (color/parts) in any ingredient. -/
theorem get_drinks_contract (t : List Drink) :
    (t = [] → get_drinks t = notFoundResponse ∧ notFoundResponse.status = 404) ∧
    (t ≠ [] →
      get_drinks t =
        ⟨200, .obj [("success", .bool true),
                    ("drinks", .arr (t.map Drink.short))]⟩ ∧
      ∀ d ∈ t,
        recipeHasDetail (((Drink.short d).lookup "recipe").getD .null) = false) := by
  constructor
  · intro h
    subst h
    exact ⟨rfl, rfl⟩
  · intro h
    constructor
    · simp [get_drinks, List.length_eq_zero, h]
    · intro d _
      rw [short_lookup_recipe]
      simp [recipeHasDetail_stripDetail]

/-- Witness for C2 at a one-row table and at the empty table. -/
theorem get_drinks_contract_witness :
    get_drinks [⟨1, .str "Water", "[]"⟩] =
      ⟨200, .obj [("success", .bool true),
                  ("drinks", .arr [Drink.short ⟨1, .str "Water", "[]"⟩])]⟩ ∧
    get_drinks [] = notFoundResponse :=
  ⟨((get_drinks_contract [⟨1, .str "Water", "[]"⟩]).2 (by simp)).1,
   ((get_drinks_contract []).1 rfl).1⟩

/-- C3: DELETE /drinks/(id) on an id held by no row answers with the
registered 404 response (status 404, never 200) and leaves the table
unchanged, whatever the persistence outcome would have been. -/
theorem delete_drink_absent_id (t : List Drink) (i : Nat) (ok : Bool)
    (h : ∀ d ∈ t, d.id ≠ i) :
    delete_drink t i ok = .ok (notFoundResponse, t) ∧
    notFoundResponse.status = 404 ∧ notFoundResponse.status ≠ 200 := by
  refine ⟨?_, rfl, by decide⟩
  have h0 : one_or_none t i = .ok none := one_or_none_absent t i h
  simp [delete_drink, h0]

/-- Witness for C3: deleting id 2 from a table holding only id 1. -/
theorem delete_drink_absent_id_witness :
    delete_drink [⟨1, .str "Water", "[]"⟩] 2 true
      = .ok (notFoundResponse, [⟨1, .str "Water", "[]"⟩]) ∧
    notFoundResponse.status = 404 ∧ notFoundResponse.status ≠ 200 :=
  delete_drink_absent_id [⟨1, .str "Water", "[]"⟩] 2 true (by decide)

/-- C5: PATCH /drinks/(id) on an id held by no row answers with the
registered 404 response and leaves every row of the table unchanged. -/
theorem edit_drink_absent_id (t : List Drink) (i : Nat) (body : Json) (ok : Bool)
    (h : ∀ d ∈ t, d.id ≠ i) :
    edit_drink t i body ok = .ok (notFoundResponse, t) ∧
    notFoundResponse.status = 404 := by
  have h0 : one_or_none t i = .ok none := one_or_none_absent t i h
  exact ⟨by simp [edit_drink, h0], rfl⟩

/-- Witness for C5: patching id 2 in a table holding only id 1. -/
theorem edit_drink_absent_id_witness :
    edit_drink [⟨1, .str "Water", "[]"⟩] 2
      (.obj [("title", .str "Tea"), ("recipe", .arr [])]) true
      = .ok (notFoundResponse, [⟨1, .str "Water", "[]"⟩]) ∧
    notFoundResponse.status = 404 :=
  edit_drink_absent_id [⟨1, .str "Water", "[]"⟩] 2
    (.obj [("title", .str "Tea"), ("recipe", .arr [])]) true (by decide)

/-- C9: a POST /drinks body, or a PATCH /drinks/(id) body on an existing
id, that lacks the key "title" or the key "recipe" makes the handler raise
an uncaught `KeyError` before its `try` block (for any persistence
outcome), so no response — in particular no uniform error envelope — is
produced. -/
theorem missing_key_uncaught (t : List Drink) (body : Json) (i : Nat)
    (d : Drink) (ok : Bool)
    (hfind : one_or_none t i = .ok (some d))
    (hmiss : Json.lookup body "title" = none ∨ Json.lookup body "recipe" = none) :
    (∃ k, create_drink t body ok = .error (.keyError k)) ∧
    (∃ k, edit_drink t i body ok = .error (.keyError k)) := by
  rcases hmiss with hm | hm
  · exact ⟨⟨"title", by simp [create_drink, hm]⟩,
           ⟨"title", by simp [edit_drink, hfind, hm]⟩⟩
  · cases hT : Json.lookup body "title" with
    | none =>
        exact ⟨⟨"title", by simp [create_drink, hT]⟩,
               ⟨"title", by simp [edit_drink, hfind, hT]⟩⟩
    | some v =>
        exact ⟨⟨"recipe", by simp [create_drink, hT, hm]⟩,
               ⟨"recipe", by simp [edit_drink, hfind, hT, hm]⟩⟩

/-- Witness for C9: the empty JSON object body against a one-row table. -/
theorem missing_key_uncaught_witness :
    (∃ k, create_drink [⟨1, .str "Water", "[]"⟩] (.obj []) true
            = .error (.keyError k)) ∧
    (∃ k, edit_drink [⟨1, .str "Water", "[]"⟩] 1 (.obj []) true
            = .error (.keyError k)) :=
  missing_key_uncaught [⟨1, .str "Water", "[]"⟩] (.obj []) 1
    ⟨1, .str "Water", "[]"⟩ true rfl (Or.inl rfl)

/-- C4: POST /drinks through the authorization checker, with a token that
validates and carries `post:drinks`, and a body holding a title and a
recipe: a new row with a fresh generated id is appended, storing the title
and `json.dumps` of the recipe, and the response is 200 with success true
and the long form of the new drink, whose body carries the generated
id. -/
theorem post_drinks_creates (hdr tkn : String) (tok : TokenValidation)
    (t : List Drink) (body title recipe : Json)
    (hb : parseBearer hdr = some tkn)
    (hdec : tok.decodable = true) (hsig : tok.signatureOk = true)
    (haud : tok.audienceOk = true) (hiss : tok.issuerOk = true)
    (hexp : tok.expired = false) (hcl : tok.hasPermissionsClaim = true)
    (hperm : "post:drinks" ∈ tok.permissions)
    (ht : Json.lookup body "title" = some title)
    (hr : Json.lookup body "recipe" = some recipe) :
    post_drinks_route (some hdr) tok t body true =
      .ok (⟨200, .obj [("success", .bool true),
                       ("drinks", Drink.long ⟨nextId t, title, Json.dumps recipe⟩)]⟩,
           t ++ [⟨nextId t, title, Json.dumps recipe⟩]) ∧
    Json.lookup (Drink.long ⟨nextId t, title, Json.dumps recipe⟩) "id"
      = some (.num (nextId t)) := by
  constructor
  · simp [post_drinks_route, check_auth, hb, hdec, hsig, haud, hiss, hexp, hcl,
          hperm, create_drink, ht, hr]
  · rfl

/-- Witness for C4: creating "Water" with an empty recipe on an empty
table through a valid `post:drinks` token. -/
theorem post_drinks_creates_witness :
    post_drinks_route (some "Bearer t0")
      ⟨true, true, true, true, false, true, ["post:drinks"]⟩ []
      (.obj [("title", .str "Water"), ("recipe", .arr [])]) true =
      .ok (⟨200, .obj [("success", .bool true),
                       ("drinks", Drink.long ⟨1, .str "Water", "[]"⟩)]⟩,
           [⟨1, .str "Water", "[]"⟩]) ∧
    Json.lookup (Drink.long ⟨1, .str "Water", "[]"⟩) "id" = some (.num 1) :=
  post_drinks_creates "Bearer t0" "t0"
    ⟨true, true, true, true, false, true, ["post:drinks"]⟩ []
    (.obj [("title", .str "Water"), ("recipe", .arr [])])
    (.str "Water") (.arr []) (by decide) rfl rfl rfl rfl rfl rfl (by simp) rfl rfl

/-- C6 counterexample: an authorization failure (insufficient permission,
status 403) is answered by `handle_auth_error` with the checker's payload
verbatim, which has no "success" and no "error" key — not the uniform
`\x7bsuccess: false, error: <status>, message: <text>\x7d` envelope. -/
theorem auth_failure_body_not_envelope :
    (handle_auth_error (authErrorOf .insufficientPermission)).status = 403 ∧
    Json.lookup (handle_auth_error (authErrorOf .insufficientPermission)).body
      "success" = none ∧
    Json.lookup (handle_auth_error (authErrorOf .insufficientPermission)).body
      "error" = none ∧
    ¬ isErrorEnvelope (handle_auth_error (authErrorOf .insufficientPermission)) := by
  refine ⟨rfl, rfl, rfl, ?_⟩
  intro henv
  cases henv.1

/-- C6 (amended): the responses of the registered 400, 404 and 422 error
handlers carry the uniform `\x7bsuccess: false, error: <status>,
message: <text>\x7d` envelope with `error` equal to the status; every
authorization failure is instead answered with the checker's
`\x7bcode, description\x7d` payload verbatim, under its status (401 or
403). -/
theorem error_response_shapes :
    isErrorEnvelope badRequestResponse ∧
    isErrorEnvelope notFoundResponse ∧
    isErrorEnvelope unprocessableResponse ∧
    ∀ f : AuthFailure,
      (handle_auth_error (authErrorOf f)).status = f.status ∧
      (f.status = 401 ∨ f.status = 403) ∧
      (handle_auth_error (authErrorOf f)).body =
        .obj [("code", .str f.code), ("description", .str f.description)] := by
  refine ⟨⟨rfl, rfl, "bad request", rfl⟩, ⟨rfl, rfl, "resource not found", rfl⟩,
          ⟨rfl, rfl, "unprocessable", rfl⟩, ?_⟩
  intro f
  refine ⟨rfl, ?_, rfl⟩
  cases f <;> simp [AuthFailure.status]

/-- C7: a token that passes every validation step (decodes, signature,
audience, issuer, not expired, permissions claim present) but whose
permission set lacks the required permission makes the checker fail with
insufficient-permission, whose status — also as mapped by
`handle_auth_error` — is 403 and nothing else. -/
theorem check_auth_insufficient (hdr tkn required : String)
    (tok : TokenValidation)
    (hb : parseBearer hdr = some tkn)
    (hdec : tok.decodable = true) (hsig : tok.signatureOk = true)
    (haud : tok.audienceOk = true) (hiss : tok.issuerOk = true)
    (hexp : tok.expired = false) (hcl : tok.hasPermissionsClaim = true)
    (hperm : required ∉ tok.permissions) :
    check_auth (some hdr) tok required = .error .insufficientPermission ∧
    AuthFailure.insufficientPermission.status = 403 ∧
    (handle_auth_error (authErrorOf .insufficientPermission)).status = 403 := by
  refine ⟨?_, rfl, rfl⟩
  simp [check_auth, hb, hdec, hsig, haud, hiss, hexp, hcl, hperm]

/-- Witness for C7: a fully valid token granting only `get:drinks-detail`,
checked against `post:drinks`. -/
theorem check_auth_insufficient_witness :
    check_auth (some "Bearer t0")
      ⟨true, true, true, true, false, true, ["get:drinks-detail"]⟩ "post:drinks"
      = .error .insufficientPermission ∧
    AuthFailure.insufficientPermission.status = 403 ∧
    (handle_auth_error (authErrorOf .insufficientPermission)).status = 403 :=
  check_auth_insufficient "Bearer t0" "t0" "post:drinks"
    ⟨true, true, true, true, false, true, ["get:drinks-detail"]⟩
    (by decide) rfl rfl rfl rfl rfl rfl (by simp)

/-- C8: a POST /drinks that passed authorization and carries both keys,
when the persistence insert raises, is answered by the `except` clause
with `abort(404)`: the registered 404 response, the table unchanged. -/
theorem create_drink_persist_error (t : List Drink) (body title recipe : Json)
    (ht : Json.lookup body "title" = some title)
    (hr : Json.lookup body "recipe" = some recipe) :
    create_drink t body false = .ok (notFoundResponse, t) ∧
    notFoundResponse.status = 404 := by
  exact ⟨by simp [create_drink, ht, hr], rfl⟩

/-- Witness for C8: a failing insert of "Water" on the empty table. -/
theorem create_drink_persist_error_witness :
    create_drink [] (.obj [("title", .str "Water"), ("recipe", .arr [])]) false
      = .ok (notFoundResponse, []) ∧
    notFoundResponse.status = 404 :=
  create_drink_persist_error []
    (.obj [("title", .str "Water"), ("recipe", .arr [])])
    (.str "Water") (.arr []) rfl rfl

/-- C10: on any fixed non-empty table, GET /drinks and GET /drinks-detail
both answer 200 with one entry per row, in the same row order and of equal
length; position i of the two listings holds the short form and the long
form of the same row i. -/
theorem listings_agree (t : List Drink) (h : t ≠ []) :
    get_drinks t =
      ⟨200, .obj [("success", .bool true),
                  ("drinks", .arr (t.map Drink.short))]⟩ ∧
    get_drinks_detail t =
      ⟨200, .obj [("success", .bool true),
                  ("drinks", .arr (t.map Drink.long))]⟩ ∧
    (t.map Drink.short).length = (t.map Drink.long).length ∧
    ∀ i : Nat, i < t.length →
      (t.map Drink.short)[i]? = (t[i]?).map Drink.short ∧
      (t.map Drink.long)[i]? = (t[i]?).map Drink.long := by
  refine ⟨?_, ?_, by simp, ?_⟩
  · simp [get_drinks, List.length_eq_zero, h]
  · simp [get_drinks_detail, List.length_eq_zero, h]
  · intro i _
    simp [List.getElem?_map]

/-- Witness for C10 at a one-row table. -/
theorem listings_agree_witness :
    get_drinks [⟨2, .str "Tea", "[]"⟩] =
      ⟨200, .obj [("success", .bool true),
                  ("drinks", .arr [Drink.short ⟨2, .str "Tea", "[]"⟩])]⟩ ∧
    get_drinks_detail [⟨2, .str "Tea", "[]"⟩] =
      ⟨200, .obj [("success", .bool true),
                  ("drinks", .arr [Drink.long ⟨2, .str "Tea", "[]"⟩])]⟩ :=
  ⟨(listings_agree [⟨2, .str "Tea", "[]"⟩] (by simp)).1,
   (listings_agree [⟨2, .str "Tea", "[]"⟩] (by simp)).2.1⟩

end CoffeeShop
